import Mathlib

/-!
Verification of the droneport navigation system (Kaitrye/droneport-navigation-system).

Shallow embedding of the core Python modules:
* `shared/messages.py`        — the `Message` dataclass and `create_response`;
* `shared/base_system.py`     — `BaseSystem._handle_message` dispatch, `start`/`stop`;
* `broker/kafka/kafka_system_bus.py` and `broker/mqtt/mqtt_system_bus.py`
                              — bus lifecycle, `subscribe`, `request`, `_handle_reply`;
* `systems/gcs/components/redis_component.py`
                              — mission-store update and fleet allocation handlers;
* `systems/gcs/components/orchestrator_component.py` and
  `systems/gcs/components/robot_component.py`
                              — the mission workflow and its failure paths.

Python dictionaries are embedded as insertion-ordered association lists
(`List (String × _)`), matching CPython's ordered-dict semantics; payload
values are embedded by a small value universe `Val` covering the value shapes
the handlers actually produce (strings, ints, bools, lists of drone ids).
-/

set_option autoImplicit false

namespace DroneNav

/-- Value universe for message payloads and store records: the handlers under
verification only ever store strings, integers, booleans and lists of drone
ids in their dictionaries. -/
inductive Val where
  | vs : String → Val
  | vi : Int → Val
  | vb : Bool → Val
  | vls : List String → Val
deriving DecidableEq, Repr

/-- Payload dictionaries (`Dict[str, Any]` in the source), insertion ordered. -/
abbrev Payload := List (String × Val)

/-- Python `d.get(k)`: first binding of `k`, if any. -/
def getA {α : Type} : List (String × α) → String → Option α
  | [], _ => none
  | (k, v) :: rest, key => if k = key then some v else getA rest key

/-- Python `d[k] = v` on an insertion-ordered dict: update in place if the key
exists, else append. -/
def setA {α : Type} : List (String × α) → String → α → List (String × α)
  | [], key, v => [(key, v)]
  | (k, w) :: rest, key, v =>
    if k = key then (k, v) :: rest else (k, w) :: setA rest key v

/-- Python `d.update(fields)`: fold `setA` over the new bindings. -/
def dictUpdate {α : Type} (d fields : List (String × α)) : List (String × α) :=
  fields.foldl (fun acc kv => setA acc kv.1 kv.2) d

/-! ## `shared/messages.py` -/

/-- The `Message` dataclass (`shared/messages.py`): `action`, `payload`,
`sender`, optional `correlation_id` and `reply_to`, and a `timestamp` string. -/
structure Message where
  action : String
  payload : Payload
  sender : String
  correlation_id : Option String
  reply_to : Option String
  timestamp : String
deriving DecidableEq, Repr

/-- Values appearing in the wire dict produced by `Message.to_dict`: the string
fields and the payload mapping. -/
inductive WireVal where
  | ws : String → WireVal
  | wp : Payload → WireVal
deriving DecidableEq, Repr

/-- The wire-level dictionary a `Message` is encoded to. -/
abbrev WireDict := List (String × WireVal)

/-- `Message.to_dict`: `{k: v for k, v in asdict(self).items() if v is not None}`,
in dataclass field order; the two optional fields are dropped when `None`. -/
def Message.to_dict (m : Message) : WireDict :=
  [("action", WireVal.ws m.action), ("payload", WireVal.wp m.payload),
   ("sender", WireVal.ws m.sender)]
  ++ (match m.correlation_id with
      | some c => [("correlation_id", WireVal.ws c)]
      | none => [])
  ++ (match m.reply_to with
      | some r => [("reply_to", WireVal.ws r)]
      | none => [])
  ++ [("timestamp", WireVal.ws m.timestamp)]

/-- String projection of a wire-dict entry, `none` when the key is absent. -/
def getStr (d : WireDict) (k : String) : Option String :=
  match getA d k with
  | some (WireVal.ws s) => some s
  | _ => none

/-- Payload projection of a wire-dict entry, `none` when the key is absent. -/
def getPayload (d : WireDict) (k : String) : Option Payload :=
  match getA d k with
  | some (WireVal.wp p) => some p
  | _ => none

/-- `Message.from_dict`: each field read with `data.get(...)` and the source's
defaults; `now` stands for the `datetime.now(...)` default used when the
`timestamp` key is absent. -/
def Message.from_dict (now : String) (d : WireDict) : Message :=
  { action := (getStr d "action").getD ""
  , payload := (getPayload d "payload").getD []
  , sender := (getStr d "sender").getD ""
  , correlation_id := getStr d "correlation_id"
  , reply_to := getStr d "reply_to"
  , timestamp := (getStr d "timestamp").getD now }

/-! ## `systems/gcs/components/redis_component.py` — fleet allocation -/

/-- One fleet-roster entry (`{"status": ..., "battery": ...}`). -/
structure FleetEntry where
  status : String
  battery : Int
deriving DecidableEq, Repr

/-- The fleet roster, a Python dict `drone_id -> entry` in insertion order. -/
abbrev Fleet := List (String × FleetEntry)

/-- The `initial_fleet` literal of `RedisComponent.__init__`. -/
def initial_fleet : Fleet :=
  [("drone-001", ⟨"available", 96⟩), ("drone-002", ⟨"available", 91⟩),
   ("drone-003", ⟨"available", 87⟩), ("drone-004", ⟨"charging", 44⟩)]

/-- Python list slice `xs[:n]` for an `int` bound `n`: for nonnegative `n` the
first `n` elements, for negative `n` all but the last `-n` elements
(`stop = max(0, len(xs) + n)`). -/
def pySliceTo {α : Type} (xs : List α) (n : Int) : List α :=
  if 0 ≤ n then xs.take n.toNat
  else xs.take (xs.length - (-n).toNat)

/-- Result of `RedisComponent._handle_allocate_drones`: the saved fleet plus
the returned `{"allocated_drones": ..., "enough": ...}` payload. -/
structure AllocateResult where
  fleet : Fleet
  allocated_drones : List String
  enough : Bool
deriving DecidableEq, Repr

/-- The handler's `available` comprehension: ids of entries whose status is
`"available"`, in roster order. -/
def availableIds (fleet : Fleet) : List String :=
  (fleet.filter (fun p => p.2.status = "available")).map Prod.fst

/-- `RedisComponent._handle_allocate_drones`: collect the ids whose status is
`"available"`, slice the first `required_count`, mark the selected entries
`"reserved"`, save, and report `enough = len(selected) >= required_count`. -/
def handle_allocate_drones (required_count : Int) (fleet : Fleet) : AllocateResult :=
  let available := availableIds fleet
  let selected := pySliceTo available required_count
  let fleet2 := fleet.map (fun p =>
    if p.1 ∈ selected then (p.1, { p.2 with status := "reserved" }) else p)
  { fleet := fleet2
  , allocated_drones := selected
  , enough := decide (required_count ≤ (selected.length : Int)) }

/-- `RedisComponent._handle_release_drones`: every listed id present in the
roster is set back to `"available"`. -/
def handle_release_drones (drone_ids : List String) (fleet : Fleet) : Fleet :=
  fleet.map (fun p =>
    if p.1 ∈ drone_ids then (p.1, { p.2 with status := "available" }) else p)

/-! ## `systems/gcs/components/redis_component.py` — mission records -/

/-- A mission record, a JSON object stored under `gcs:mission:{id}`. -/
abbrev Mission := List (String × Val)

/-- The mission store: key `mission_id` to the stored record. -/
abbrev MissionStore := List (String × Mission)

/-- Result of `_handle_update_mission`: the store after the write plus the
returned `updated` flag and optional error text. -/
structure UpdateResult where
  store : MissionStore
  updated : Bool
  err : Option String
deriving DecidableEq, Repr

/-- The record written by `_handle_update_mission`: `mission.update(fields)`
followed by `mission["updated_at"] = now`. -/
def mergedMission (now : String) (mission fields : Mission) : Mission :=
  setA (dictUpdate mission fields) "updated_at" (Val.vs now)

/-- `RedisComponent._handle_update_mission`: reject a missing/empty
`mission_id`, report `updated=false` when the record is absent, otherwise
merge `fields` into the record unconditionally and write it back under the
record's own `mission_id` (`none` models the `KeyError` raised by
`_write_mission` when the merged record lacks a string `mission_id`). -/
def handle_update_mission (now : String) (mission_id : Option String)
    (fields : Mission) (store : MissionStore) : Option UpdateResult :=
  match mission_id with
  | none => some { store := store, updated := false, err := some "mission_id is required" }
  | some mid =>
    if mid = "" then
      some { store := store, updated := false, err := some "mission_id is required" }
    else
      match getA store mid with
      | none => some { store := store, updated := false, err := none }
      | some mission =>
        let merged := mergedMission now mission fields
        match getA merged "mission_id" with
        | some (Val.vs key) =>
          some { store := setA store key merged, updated := true, err := none }
        | _ => none

/-! ## `shared/base_system.py` — the dispatch boundary -/

/-- An inbound message as `_handle_message` sees it (a decoded wire dict);
`none` models an absent key. -/
structure InMsg where
  action : Option String
  payload : Payload
  sender : String
  correlation_id : Option String
  reply_to : Option String
deriving Repr

/-- A dict published by the dispatch boundary: either a `create_response`
reply or the `respond(..., action="error")` reply. Keys the source dict omits
are `none`. -/
structure OutMsg where
  action : String
  payload : Payload
  sender : Option String
  correlation_id : Option String
  success : Option Bool
  error : Option String
  timestamp : Option String
deriving DecidableEq, Repr

/-- `create_response` (`shared/messages.py`): a `"response"` dict carrying the
correlation id, payload, sender, the `success` flag and a timestamp; the
`error` key is added only when `error` is truthy (`if error:`). -/
def create_response (correlation_id : Option String) (payload : Payload)
    (sender : String) (success : Bool) (error : Option String) (now : String) : OutMsg :=
  { action := "response", payload := payload, sender := some sender,
    correlation_id := correlation_id, success := some success,
    error := match error with
             | some e => if e = "" then none else some e
             | none => none,
    timestamp := some now }

/-- The dict built by `SystemBus.respond` (`broker/src/system_bus.py`): only
`action`, `correlation_id` and `payload`. -/
def respondMsg (action : String) (correlation_id : Option String)
    (payload : Payload) : OutMsg :=
  { action := action, payload := payload, sender := none,
    correlation_id := correlation_id, success := none, error := none,
    timestamp := none }

/-- Outcome of invoking a registered handler: a returned payload (or `None`),
or a raised exception with its `str(e)` text. -/
inductive HandlerOutcome where
  | ok : Option Payload → HandlerOutcome
  | exc : String → HandlerOutcome
deriving Repr

/-- The registered handler table (`self._handlers`). -/
abbrev Handlers := List (String × (InMsg → HandlerOutcome))

/-- `BaseSystem._handle_message`: route by `action`; an unknown action yields
an `"error"` reply iff a (truthy) `reply_to` is present; a handler result is
replied iff `reply_to` is present and the result is not `None`; a raising
handler is caught and converted into a failed `create_response` carrying
`str(e)` iff `reply_to` is present. The returned list is what got published,
as `(topic, message)` pairs; the function is total — dispatch never raises. -/
def handle_message (system_id now : String) (handlers : Handlers)
    (message : InMsg) : List (String × OutMsg) :=
  match message.action with
  | none => []
  | some a =>
    if a = "" then []
    else
      match getA handlers a with
      | none =>
        match message.reply_to with
        | some rt =>
          if rt = "" then []
          else [(rt, respondMsg "error" message.correlation_id
                  [("error", Val.vs ("Unknown action: " ++ a))])]
        | none => []
      | some handler =>
        match handler message with
        | HandlerOutcome.ok result =>
          match message.reply_to, result with
          | some rt, some res =>
            if rt = "" then []
            else [(rt, create_response message.correlation_id res system_id true none now)]
          | _, _ => []
        | HandlerOutcome.exc e =>
          match message.reply_to with
          | some rt =>
            if rt = "" then []
            else [(rt, create_response message.correlation_id [] system_id false (some e) now)]
          | none => []

/-- `BaseSystem._handle_ping`: returns `{"pong": True, "system_id": ...}`. -/
def pingHandler (system_id : String) : InMsg → HandlerOutcome :=
  fun _ => HandlerOutcome.ok (some [("pong", Val.vb true), ("system_id", Val.vs system_id)])

/-! ## `broker/kafka/kafka_system_bus.py` — request/reply correlation -/

/-- The caller-supplied request dict handed to `request()` before stamping. -/
structure ReqMsg where
  action : String
  payload : Payload
  sender : String
deriving Repr

/-- The stamping step of `request()`:
`{**message, "correlation_id": cid, "reply_to": reply_topic}`. -/
def stampRequest (m : ReqMsg) (cid replyTopic : String) : InMsg :=
  { action := some m.action, payload := m.payload, sender := m.sender,
    correlation_id := some cid, reply_to := some replyTopic }

/-- `KafkaSystemBus._handle_reply`: a reply without a truthy `correlation_id`
is ignored; when the id is pending the entry is popped and the future resolved
with the whole reply message; otherwise the reply is discarded. -/
def handle_reply (pending : List String) (msg : OutMsg) :
    List String × Option OutMsg :=
  match msg.correlation_id with
  | none => (pending, none)
  | some cid =>
    if cid = "" then (pending, none)
    else if cid ∈ pending then (pending.erase cid, some msg)
    else (pending, none)

/-- Delivery of the published replies to the requester: each message published
on the requester's reply topic is fed to `_handle_reply` with the fresh
correlation id pending; the first resolution is what `future.result` (and so
`request()`) returns. -/
def requestRoundTrip (peerId now : String) (handlers : Handlers)
    (m : ReqMsg) (cid replyTopic : String) : Option OutMsg :=
  let rm := stampRequest m cid replyTopic
  let outs := handle_message peerId now handlers rm
  let replies := (outs.filter (fun o => o.1 = replyTopic)).map Prod.snd
  (replies.foldl (fun acc r =>
      match acc with
      | (pending, some res) => (pending, some res)
      | (pending, none) => handle_reply pending r) ([cid], none)).2

/-! ## Bus request outcome (`request` in both backends) -/

/-- Environment of one `request()` call: whether the `publish` succeeded, and
the matching reply delivered before the timeout, if any. -/
structure RequestEnv where
  publishOk : Bool
  replyWithinTimeout : Option OutMsg
deriving Repr

/-- `KafkaSystemBus.request` (the `MQTTSystemBus.request` body is line-for-line
the same): register a pending future under a fresh correlation id, stamp and
publish; when `publish` fails, pop the entry and return `None`; when a
matching reply arrives before the timeout, return the whole reply message
(`_handle_reply` popped the entry); when the timeout fires, pop the entry and
return `None`. Returns the call result and the pending-registry contents
after the call. -/
def bus_request (pending : List String) (cid : String) (env : RequestEnv) :
    Option OutMsg × List String :=
  let registered := pending ++ [cid]
  if !env.publishOk then (none, registered.erase cid)
  else
    match env.replyWithinTimeout with
    | some r => (some r, registered.erase cid)
    | none => (none, registered.erase cid)

/-! ## `kafka_system_bus.py` / `mqtt_system_bus.py` — lifecycle state -/

/-- KafkaSystemBus mutable state: the callback/consumer/thread/running maps
keyed by topic, the producer handle, the private reply topic and `_started`. -/
structure KafkaBus where
  replyTopic : String
  producer : Bool
  callbacks : List String
  consumers : List String
  threads : List String
  running : List (String × Bool)
  started : Bool
deriving DecidableEq, Repr

/-- `KafkaSystemBus.subscribe`: a topic already in `_callbacks` is a no-op
that returns `True` without creating a second consumer or worker; otherwise
the callback is registered first, then the consumer, its running flag and its
worker thread are created — `consumerOk` models whether `KafkaConsumer(...)`
raises; on failure the function returns `False` but the callback registration
is left in place (the source registers it before the `try`). -/
def kafkaSubscribe (consumerOk : Bool) (topic : String) (st : KafkaBus) :
    Bool × KafkaBus :=
  if topic ∈ st.callbacks then (true, st)
  else
    let st1 := { st with callbacks := st.callbacks ++ [topic] }
    if consumerOk then
      (true, { st1 with consumers := st1.consumers ++ [topic],
                        running := setA st1.running topic true,
                        threads := st1.threads ++ [topic] })
    else (false, st1)

/-- `KafkaSystemBus.start`: an already-started bus returns immediately;
otherwise the producer is created, a best-effort init message is sent, the
reply topic is subscribed — with the boolean result ignored — and `_started`
is set to `True` unconditionally. -/
def kafkaStart (consumerOk : Bool) (st : KafkaBus) : KafkaBus :=
  if st.started then st
  else
    let st1 := { st with producer := true }
    let st2 := (kafkaSubscribe consumerOk st.replyTopic st1).2
    { st2 with started := true }

/-- `KafkaSystemBus.unsubscribe`: force the topic's running flag to `False`
(inserting the key if absent), then drop the thread, callback and consumer
entries when present; always returns `True`. -/
def kafkaUnsubscribe (topic : String) (st : KafkaBus) : Bool × KafkaBus :=
  (true, { st with running := setA st.running topic false,
                   threads := st.threads.erase topic,
                   callbacks := st.callbacks.erase topic,
                   consumers := st.consumers.erase topic })

/-- `KafkaSystemBus.stop`: flags every consumer loop off, joins the threads,
closes consumers and producer, clears all four maps and resets `_started`
(the producer attribute itself is kept). -/
def kafkaStop (st : KafkaBus) : KafkaBus :=
  { st with callbacks := [], consumers := [], threads := [], running := [],
            started := false }

/-- A fresh `KafkaSystemBus.__init__` state. -/
def freshKafkaBus (replyTopic : String) : KafkaBus :=
  { replyTopic := replyTopic, producer := false, callbacks := [],
    consumers := [], threads := [], running := [], started := false }

/-- MQTTSystemBus state: the callback map, the connection flag and `_started`. -/
structure MqttBus where
  replyTopic : String
  callbacks : List String
  connected : Bool
  started : Bool
deriving DecidableEq, Repr

/-- `MQTTSystemBus.subscribe`: registers the callback (a dict write, so a
repeat registration leaves the key set unchanged), then issues the broker
subscribe when connected — `subOk` models the broker's result code; a refusal
returns `False` with the callback left registered. -/
def mqttSubscribe (subOk : Bool) (topic : String) (st : MqttBus) :
    Bool × MqttBus :=
  let st1 := { st with callbacks :=
                if topic ∈ st.callbacks then st.callbacks else st.callbacks ++ [topic] }
  if st1.connected then (subOk, st1) else (true, st1)

/-- `MQTTSystemBus.start`: raising `ConnectionError` (an `Except.error`) when
the broker connection is not established within the wait loop; otherwise the
reply topic is subscribed — the boolean result ignored — and `_started` set. -/
def mqttStart (connectOk subOk : Bool) (st : MqttBus) : Except String MqttBus :=
  if st.started then Except.ok st
  else if !connectOk then Except.error "Failed to start MQTT SystemBus"
  else
    let st1 := { st with connected := true }
    let st2 := (mqttSubscribe subOk st.replyTopic st1).2
    Except.ok { st2 with started := true }

/-- A fresh `MQTTSystemBus.__init__` state. -/
def freshMqttBus (replyTopic : String) : MqttBus :=
  { replyTopic := replyTopic, callbacks := [], connected := false, started := false }

/-! ## `BaseSystem.start` / `BaseSystem.stop` over the Kafka bus -/

/-- A `BaseSystem` instance: its bus, its inbound topic and `_running`. -/
structure SysState where
  bus : KafkaBus
  topic : String
  running : Bool
deriving DecidableEq, Repr

/-- `BaseSystem.start`: start the bus, subscribe the service topic (result
ignored) and set `_running` (the optional health-check server is out of
scope). -/
def systemStart (consumerOk : Bool) (s : SysState) : SysState :=
  let b1 := kafkaStart consumerOk s.bus
  let b2 := (kafkaSubscribe consumerOk s.topic b1).2
  { s with bus := b2, running := true }

/-- `BaseSystem.stop`: clear `_running`, unsubscribe the service topic, stop
the bus. -/
def systemStop (s : SysState) : SysState :=
  let b1 := (kafkaUnsubscribe s.topic s.bus).2
  { s with bus := kafkaStop b1, running := false }

/-! ## Mission workflow — `orchestrator_component.py` + `robot_component.py` -/

/-- A bus call issued during the workflow: target topic, action, the per-drone
argument of the vehicle steps, and the `fields["status"]` value carried by
`redis.update_mission` calls. -/
structure SagaCall where
  topic : String
  action : String
  drone : Option String
  status : Option String
deriving DecidableEq, Repr

/-- A workflow call with neither drone nor status argument. -/
def call0 (topic action : String) : SagaCall := ⟨topic, action, none, none⟩

/-- A per-drone vehicle/abort call. -/
def callDrone (topic action d : String) : SagaCall := ⟨topic, action, some d, none⟩

/-- A `redis.update_mission` call carrying a status field. -/
def callStatus (topic action st : String) : SagaCall := ⟨topic, action, none, some st⟩

/-- String-list projection of a reply payload entry (`.get(key, [])`). -/
def getStrListD (p : Payload) (k : String) : List String :=
  match getA p k with
  | some (Val.vls l) => l
  | _ => []

/-- Boolean projection of a reply payload entry (`.get(key, False)`). -/
def getBoolD (p : Payload) (k : String) : Bool :=
  match getA p k with
  | some (Val.vb b) => b
  | _ => false

/-- Responses the workflow's `request()` calls receive: `none` is a timeout or
transport failure; per-drone steps are keyed by drone id. `robotReachable`
models whether the orchestrator's `robot.execute_mission` request reaches the
robot service and its reply returns in time. -/
structure SagaEnv where
  fleetAllocate : Option OutMsg
  robotReachable : Bool
  reserve : Option OutMsg
  preflight : Option OutMsg
  chargeStep : Option OutMsg
  release : Option OutMsg
  upload : String → Option OutMsg
  arm : String → Option OutMsg
  takeoff : String → Option OutMsg

/-- Result payload of `RobotComponent._handle_execute_mission`. -/
structure RobotResult where
  started : Bool
  error : Option String
deriving DecidableEq, Repr

/-- The per-drone loop of `_handle_execute_mission`: for each assigned drone,
`upload_mission`, `arm`, `takeoff` against the external drone service; the
first falsy reply aborts the loop with the step's error text. Returns the
error (if any) and the calls issued. -/
def droneLoop (env : SagaEnv) : List String → Option String × List SagaCall
  | [] => (none, [])
  | d :: rest =>
    let c1 := callDrone "external.drone_service" "upload_mission" d
    match env.upload d with
    | none => (some ("upload_mission timeout for " ++ d), [c1])
    | some _ =>
      let c2 := callDrone "external.drone_service" "arm" d
      match env.arm d with
      | none => (some ("arm timeout for " ++ d), [c1, c2])
      | some _ =>
        let c3 := callDrone "external.drone_service" "takeoff" d
        match env.takeoff d with
        | none => (some ("takeoff timeout for " ++ d), [c1, c2, c3])
        | some _ =>
          let rest2 := droneLoop env rest
          (rest2.1, c1 :: c2 :: c3 :: rest2.2)

/-- `RobotComponent._handle_execute_mission`: the four droneport steps
(`reserve_slots`, `preflight_check`, `charge_to_threshold`,
`release_for_takeoff`), then the per-drone loop, then on full success a
`redis.update_mission` write with status `"running"`. Any falsy step reply
returns `started=False` with the step's error text — and issues nothing
else. -/
def robotExecuteMission (env : SagaEnv) (droneIds : List String) :
    RobotResult × List SagaCall :=
  let cR := call0 "systems.droneport" "reserve_slots"
  match env.reserve with
  | none => (⟨false, some "droneport.reserve_slots timeout"⟩, [cR])
  | some _ =>
    let cP := call0 "systems.droneport" "preflight_check"
    match env.preflight with
    | none => (⟨false, some "droneport.preflight_check timeout"⟩, [cR, cP])
    | some _ =>
      let cC := call0 "systems.droneport" "charge_to_threshold"
      match env.chargeStep with
      | none => (⟨false, some "droneport.charge_to_threshold timeout"⟩, [cR, cP, cC])
      | some _ =>
        let cL := call0 "systems.droneport" "release_for_takeoff"
        match env.release with
        | none => (⟨false, some "droneport.release_for_takeoff timeout"⟩, [cR, cP, cC, cL])
        | some _ =>
          let dres := droneLoop env droneIds
          match dres.1 with
          | some msg => (⟨false, some msg⟩, [cR, cP, cC, cL] ++ dres.2)
          | none =>
            (⟨true, none⟩, [cR, cP, cC, cL] ++ dres.2
              ++ [callStatus "systems.gcs_redis" "redis.update_mission" "running"])

/-- Result payload of `OrchestratorComponent._handle_plan`. -/
structure PlanResult where
  accepted : Bool
  status : String
  drone_ids : List String
  error : Option String
deriving DecidableEq, Repr

/-- `OrchestratorComponent._handle_plan`: allocate via the fleet service; on a
falsy or unsuccessful reply report failure (with no store write); with an
allocation that is not `enough`, write status `"failed"` and report failure;
otherwise write `"planned"`, run `robot.execute_mission`, and depending on the
robot's reply write `"failed"` or `"running"` and report accordingly. The
`SystemTopics.GCS_*` topic names the components reference are not defined
under `src/shared/topics.py`; the strings used here stand for them — only the
action names matter to the claims. -/
def handle_plan (env : SagaEnv) : PlanResult × List SagaCall :=
  let cA := call0 "systems.gcs_fleet" "fleet.allocate"
  match env.fleetAllocate with
  | none => (⟨false, "failed", [], some "fleet unavailable"⟩, [cA])
  | some fr =>
    if fr.success ≠ some true then
      (⟨false, "failed", [], some "fleet unavailable"⟩, [cA])
    else
      let droneIds := getStrListD fr.payload "allocated_drones"
      if !(getBoolD fr.payload "enough") then
        (⟨false, "failed", [], some "not enough drones"⟩,
         [cA, callStatus "systems.gcs_redis" "redis.update_mission" "failed"])
      else
        let cPlanned := callStatus "systems.gcs_redis" "redis.update_mission" "planned"
        let cRobot := call0 "systems.gcs_robot" "robot.execute_mission"
        if !env.robotReachable then
          (⟨false, "failed", [], some "robot unavailable"⟩,
           [cA, cPlanned, cRobot,
            callStatus "systems.gcs_redis" "redis.update_mission" "failed"])
        else
          let rres := robotExecuteMission env droneIds
          if !rres.1.started then
            (⟨false, "failed", droneIds, some (rres.1.error.getD "robot start failed")⟩,
             [cA, cPlanned, cRobot] ++ rres.2
               ++ [callStatus "systems.gcs_redis" "redis.update_mission" "failed"])
          else
            (⟨true, "running", droneIds, none⟩,
             [cA, cPlanned, cRobot] ++ rres.2
               ++ [callStatus "systems.gcs_redis" "redis.update_mission" "running"])

/-- `RobotComponent._handle_abort_mission` (the compensation path, reached
only via `orchestrator.cancel`): per drone an `abort` to the drone service and
an `emergency_receive` to the droneport, then one `fleet.release`. -/
def handle_abort_mission (droneIds : List String) : List SagaCall :=
  (droneIds.flatMap (fun d =>
    [callDrone "external.drone_service" "abort" d,
     callDrone "systems.droneport" "emergency_receive" d]))
  ++ [call0 "systems.gcs_fleet" "fleet.release"]

/-- A generic successful reply message (dispatch wraps every handler result
with `success=True`). -/
def okReply : OutMsg :=
  { action := "response", payload := [], sender := some "svc",
    correlation_id := none, success := some true, error := none, timestamp := none }

/-- A successful fleet reply allocating two drones with `enough=true`. -/
def fleetOkReply : OutMsg :=
  { okReply with payload :=
      [("allocated_drones", Val.vls ["drone-001", "drone-002"]),
       ("enough", Val.vb true)] }

/-- Concrete environment: allocation of two drones succeeds, every droneport
step succeeds, drone-001 completes upload/arm/takeoff, and the `arm` call for
drone-002 times out. -/
def cexEnv : SagaEnv :=
  { fleetAllocate := some fleetOkReply
  , robotReachable := true
  , reserve := some okReply
  , preflight := some okReply
  , chargeStep := some okReply
  , release := some okReply
  , upload := fun _ => some okReply
  , arm := fun d => if d = "drone-002" then none else some okReply
  , takeoff := fun _ => some okReply }

end DroneNav

namespace DroneNav

/-- C9. Encoding any `Message` with `to_dict` and decoding with `from_dict`
reproduces every field exactly; optional fields that were absent (`None`)
before encoding are still absent after decoding, not coerced to a default. -/
theorem message_roundtrip (m : Message) (now : String) :
    Message.from_dict now (Message.to_dict m) = m := by
  cases m with
  | mk action payload sender cid rto ts =>
    cases cid <;> cases rto <;>
      simp +decide [Message.to_dict, Message.from_dict, getStr, getPayload, getA]

/-- C6. For every fleet and every (nonnegative) requested count `n`, the
allocation handler returns exactly `min n available` drone ids, every returned
entry is saved with status `"reserved"`, every non-returned entry is saved
unchanged, and `enough = true` iff at least `n` entries were available. -/
theorem allocate_drones_spec (n : Int) (fleet : Fleet) (h : 0 ≤ n) :
    (handle_allocate_drones n fleet).allocated_drones.length
        = min n.toNat (availableIds fleet).length
    ∧ ((handle_allocate_drones n fleet).enough = true
        ↔ n ≤ ((availableIds fleet).length : Int))
    ∧ (∀ p ∈ (handle_allocate_drones n fleet).fleet,
        p.1 ∈ (handle_allocate_drones n fleet).allocated_drones → p.2.status = "reserved")
    ∧ (∀ id e, (id, e) ∈ fleet →
        id ∉ (handle_allocate_drones n fleet).allocated_drones →
        (id, e) ∈ (handle_allocate_drones n fleet).fleet) := by
  have hsel : (handle_allocate_drones n fleet).allocated_drones
      = (availableIds fleet).take n.toNat := by
    simp [handle_allocate_drones, pySliceTo, h]
  have hlen : (handle_allocate_drones n fleet).allocated_drones.length
      = min n.toNat (availableIds fleet).length := by
    rw [hsel, List.length_take]
  refine ⟨hlen, ?_, ?_, ?_⟩
  · have he : (handle_allocate_drones n fleet).enough
        = decide (n ≤ ((handle_allocate_drones n fleet).allocated_drones.length : Int)) := by
      simp [handle_allocate_drones]
    rw [he, hlen]
    simp only [decide_eq_true_eq]
    omega
  · intro p hp hmem
    have hp2 : p ∈ fleet.map (fun q =>
        if q.1 ∈ (handle_allocate_drones n fleet).allocated_drones
        then (q.1, { q.2 with status := "reserved" }) else q) := by
      simpa [handle_allocate_drones] using hp
    rcases List.mem_map.mp hp2 with ⟨q, _, hfq⟩
    by_cases hq : q.1 ∈ (handle_allocate_drones n fleet).allocated_drones
    · rw [if_pos hq] at hfq
      rw [← hfq]
    · rw [if_neg hq] at hfq
      exact absurd (hfq ▸ hq) (not_not_intro hmem)
  · intro id e hin hnot
    have hfix : (fun q : String × FleetEntry =>
        if q.1 ∈ (handle_allocate_drones n fleet).allocated_drones
        then (q.1, { q.2 with status := "reserved" }) else q) (id, e) = (id, e) := by
      simp [hnot]
    have hm := List.mem_map_of_mem (f := fun q : String × FleetEntry =>
        if q.1 ∈ (handle_allocate_drones n fleet).allocated_drones
        then (q.1, { q.2 with status := "reserved" }) else q) hin
    rw [hfix] at hm
    simpa [handle_allocate_drones] using hm

/-- C6 witness: the two spec scenarios, via `allocate_drones_spec` — allocating
2 with 3 available (the source's `initial_fleet`) yields 2 ids and `enough`;
allocating 3 with only 1 available yields 1 id and `not enough`. -/
theorem allocate_drones_spec_witness :
    (0 ≤ (2 : Int)
      ∧ (handle_allocate_drones 2 initial_fleet).allocated_drones.length = 2
      ∧ (handle_allocate_drones 2 initial_fleet).enough = true)
    ∧ (0 ≤ (3 : Int)
      ∧ (handle_allocate_drones 3 [("drone-009", ⟨"available", 50⟩)]).allocated_drones.length = 1
      ∧ (handle_allocate_drones 3 [("drone-009", ⟨"available", 50⟩)]).enough = false) := by
  have h2 := allocate_drones_spec 2 initial_fleet (by decide)
  have h3 := allocate_drones_spec 3 [("drone-009", ⟨"available", 50⟩)] (by decide)
  refine ⟨⟨by decide, ?_, h2.2.1.mpr (by decide)⟩, ⟨by decide, ?_, ?_⟩⟩
  · rw [h2.1]
    decide
  · rw [h3.1]
    decide
  · have := h3.2.1
    revert this
    decide

/-- C10 counterexample: with the source's `initial_fleet` (three available
drones) a required count of `-1` does not return an empty list and does not
leave the fleet unchanged — Python's negative slice selects all but the last
available drone and marks them reserved. -/
theorem allocate_nonpositive_counterexample :
    (handle_allocate_drones (-1) initial_fleet).allocated_drones
        = ["drone-001", "drone-002"]
    ∧ (handle_allocate_drones (-1) initial_fleet).allocated_drones ≠ []
    ∧ (handle_allocate_drones (-1) initial_fleet).fleet ≠ initial_fleet
    ∧ getA (handle_allocate_drones (-1) initial_fleet).fleet "drone-001"
        = some ⟨"reserved", 96⟩ := by
  decide

/-- C10 amended. A required count of zero succeeds with an empty list,
`enough=true` and an unchanged fleet; a negative count also reports
`enough=true` but returns (and marks reserved) all but the last `-n` available
entries, per Python's negative slice. -/
theorem allocate_nonpositive_spec (n : Int) (fleet : Fleet) (h : n ≤ 0) :
    (handle_allocate_drones n fleet).enough = true
    ∧ (n = 0 → (handle_allocate_drones n fleet).allocated_drones = []
        ∧ (handle_allocate_drones n fleet).fleet = fleet)
    ∧ (n < 0 → (handle_allocate_drones n fleet).allocated_drones
        = (availableIds fleet).take ((availableIds fleet).length - (-n).toNat)) := by
  refine ⟨?_, ?_, ?_⟩
  · have he : (handle_allocate_drones n fleet).enough
        = decide (n ≤ ((handle_allocate_drones n fleet).allocated_drones.length : Int)) := by
      simp [handle_allocate_drones]
    rw [he]
    simp only [decide_eq_true_eq]
    omega
  · intro h0
    subst h0
    constructor
    · simp [handle_allocate_drones, pySliceTo]
    · simp [handle_allocate_drones, pySliceTo]
  · intro hneg
    have : ¬ (0 ≤ n) := by omega
    simp [handle_allocate_drones, pySliceTo, this]

/-- C10 witness: `allocate_nonpositive_spec` applied at counts `-1` and `0` on
the source's `initial_fleet`. -/
theorem allocate_nonpositive_spec_witness :
    ((-1 : Int) ≤ 0 ∧ (handle_allocate_drones (-1) initial_fleet).enough = true)
    ∧ ((0 : Int) ≤ 0 ∧ (handle_allocate_drones 0 initial_fleet).fleet = initial_fleet) :=
  ⟨⟨by decide, (allocate_nonpositive_spec (-1) initial_fleet (by decide)).1⟩,
   ⟨by decide, ((allocate_nonpositive_spec 0 initial_fleet (by decide)).2.1 rfl).2⟩⟩

/-! ### Association-list lemmas for the mission store -/

theorem getA_setA_self {α : Type} (d : List (String × α)) (k : String) (v : α) :
    getA (setA d k v) k = some v := by
  induction d with
  | nil => simp [setA, getA]
  | cons p rest ih =>
    by_cases hp : p.1 = k
    · simp [setA, hp, getA]
    · simp [setA, hp, getA, ih]

theorem getA_setA_ne {α : Type} (d : List (String × α)) (k k' : String) (v : α)
    (h : k' ≠ k) : getA (setA d k v) k' = getA d k' := by
  induction d with
  | nil => simp [setA, getA, Ne.symm h]
  | cons p rest ih =>
    by_cases hp : p.1 = k
    · simp [setA, hp, getA, Ne.symm h]
    · simp [setA, hp, getA, ih]

theorem getA_dictUpdate_notmem {α : Type} (d : List (String × α))
    (fields : List (String × α)) (k : String)
    (h : k ∉ fields.map Prod.fst) : getA (dictUpdate d fields) k = getA d k := by
  induction fields generalizing d with
  | nil => simp [dictUpdate]
  | cons f rest ih =>
    have hk : k ≠ f.1 := by
      intro he
      exact h (by simp [he])
    have hrest : k ∉ rest.map Prod.fst := by
      intro hm
      exact h (by simp [hm])
    show getA (dictUpdate (setA d f.1 f.2) rest) k = getA d k
    rw [ih _ hrest, getA_setA_ne _ _ _ _ hk]

theorem getA_dictUpdate_mem {α : Type} (d : List (String × α))
    (fields : List (String × α)) (k : String) (v : α)
    (h : getA fields k = some v) (hnd : (fields.map Prod.fst).Nodup) :
    getA (dictUpdate d fields) k = some v := by
  induction fields generalizing d with
  | nil => simp [getA] at h
  | cons f rest ih =>
    have hnd2 : (rest.map Prod.fst).Nodup := (List.nodup_cons.mp hnd).2
    by_cases hf : f.1 = k
    · have hv : f.2 = v := by
        simpa [getA, hf] using h
      have hknot : k ∉ rest.map Prod.fst := hf ▸ (List.nodup_cons.mp hnd).1
      show getA (dictUpdate (setA d f.1 f.2) rest) k = some v
      rw [getA_dictUpdate_notmem _ _ _ hknot, hf, getA_setA_self, hv]
    · have hr : getA rest k = some v := by
        simpa [getA, hf] using h
      show getA (dictUpdate (setA d f.1 f.2) rest) k = some v
      exact ih (setA d f.1 f.2) hr hnd2

/-- C2 counterexample: a mission already in the terminal state `"failed"` is
updated to `"running"` by the mission-update handler — the handler merges the
requested fields unconditionally, so terminal states are not absorbing. -/
theorem update_mission_counterexample :
    handle_update_mission "t1" (some "m-1") [("status", Val.vs "running")]
        [("m-1", [("mission_id", Val.vs "m-1"), ("status", Val.vs "failed")])]
      = some { store := [("m-1", [("mission_id", Val.vs "m-1"), ("status", Val.vs "running"),
                                  ("updated_at", Val.vs "t1")])],
               updated := true, err := none }
    ∧ (getA [("m-1", [("mission_id", Val.vs "m-1"), ("status", Val.vs "failed")])] "m-1").map
        (fun m => getA m "status") = some (some (Val.vs "failed")) := by
  decide

/-- C2 amended. The mission-update handler applies the requested fields
unconditionally, whatever the record's current status (terminal or not): when
the record exists, the written record's status is exactly the status carried
by `fields`, and the handler reports `updated=true`. Terminal states are not
absorbing at the store level. -/
theorem update_mission_overwrites_status (now mid : String) (store : MissionStore)
    (mission fields : Mission) (v : Val)
    (hmid : mid ≠ "") (hfound : getA store mid = some mission)
    (hstatus : getA fields "status" = some v)
    (hnd : (fields.map Prod.fst).Nodup) :
    getA (mergedMission now mission fields) "status" = some v
    ∧ (∀ key, getA (mergedMission now mission fields) "mission_id" = some (Val.vs key) →
        handle_update_mission now (some mid) fields store
          = some { store := setA store key (mergedMission now mission fields),
                   updated := true, err := none }) := by
  constructor
  · unfold mergedMission
    rw [getA_setA_ne _ _ _ _ (by decide), getA_dictUpdate_mem _ _ _ _ hstatus hnd]
  · intro key hkey
    simp only [handle_update_mission, hfound, hkey, if_neg hmid]

/-- C7. The dispatch boundary never lets a failure escape: the dispatcher is a
total function of the inbound message, and (i) an unknown action publishes a
single `"error"` reply when a reply address is present and nothing otherwise;
(ii) a raising handler is caught and converted into a single failed response
carrying `str(e)` when a reply address is present, and publishes nothing
otherwise. -/
theorem dispatch_boundary_spec (sid now : String) (handlers : Handlers)
    (msg : InMsg) (a : String) (ha : msg.action = some a) (hne : a ≠ "") :
    (getA handlers a = none → msg.reply_to = none →
        handle_message sid now handlers msg = [])
    ∧ (∀ rt, getA handlers a = none → msg.reply_to = some rt → rt ≠ "" →
        handle_message sid now handlers msg
          = [(rt, respondMsg "error" msg.correlation_id
                [("error", Val.vs ("Unknown action: " ++ a))])])
    ∧ (∀ h e, getA handlers a = some h → h msg = HandlerOutcome.exc e →
        msg.reply_to = none → handle_message sid now handlers msg = [])
    ∧ (∀ h e rt, getA handlers a = some h → h msg = HandlerOutcome.exc e →
        msg.reply_to = some rt → rt ≠ "" →
        handle_message sid now handlers msg
          = [(rt, create_response msg.correlation_id [] sid false (some e) now)]) := by
  refine ⟨?_, ?_, ?_, ?_⟩
  · intro hu hr
    simp [handle_message, ha, hne, hu, hr]
  · intro rt hu hr hrt
    simp [handle_message, ha, hne, hu, hr, hrt]
  · intro h e hh he hr
    simp [handle_message, ha, hne, hh, he, hr]
  · intro h e rt hh he hr hrt
    simp [handle_message, ha, hne, hh, he, hr, hrt]

/-- C7 witness: `dispatch_boundary_spec` exercised on an unknown action with a
reply address, and on a handler that raises. -/
theorem dispatch_boundary_spec_witness :
    (InMsg.mk (some "nope") [] "api" (some "c-1") (some "replies.t1")).action = some "nope"
    ∧ ("nope" : String) ≠ ""
    ∧ handle_message "sys-1" "t0" []
        (InMsg.mk (some "nope") [] "api" (some "c-1") (some "replies.t1"))
        = [("replies.t1", respondMsg "error" (some "c-1")
              [("error", Val.vs "Unknown action: nope")])]
    ∧ handle_message "sys-1" "t0" [("boom", fun _ => HandlerOutcome.exc "kaboom")]
        (InMsg.mk (some "boom") [] "api" (some "c-2") (some "replies.t1"))
        = [("replies.t1", create_response (some "c-2") [] "sys-1" false (some "kaboom") "t0")] :=
  ⟨rfl, by decide,
   (dispatch_boundary_spec "sys-1" "t0" []
      (InMsg.mk (some "nope") [] "api" (some "c-1") (some "replies.t1")) "nope"
      rfl (by decide)).2.1 "replies.t1" rfl rfl (by decide),
   (dispatch_boundary_spec "sys-1" "t0" [("boom", fun _ => HandlerOutcome.exc "kaboom")]
      (InMsg.mk (some "boom") [] "api" (some "c-2") (some "replies.t1")) "boom"
      rfl (by decide)).2.2.2 (fun _ => HandlerOutcome.exc "kaboom") "kaboom" "replies.t1"
      rfl rfl rfl (by decide)⟩

/-- C5. When the addressed peer has a handler for the request's action and the
handler returns a result that is delivered before the timeout, `request()`
returns exactly the peer's reply: its payload is the handler's result verbatim
and the correlation id it carries is exactly the one stamped on the request. -/
theorem request_reply_correlation (peerId now : String) (handlers : Handlers)
    (m : ReqMsg) (cid replyTopic : String) (h : InMsg → HandlerOutcome) (res : Payload)
    (hcid : cid ≠ "") (hrt : replyTopic ≠ "") (hact : m.action ≠ "")
    (hh : getA handlers m.action = some h)
    (hres : h (stampRequest m cid replyTopic) = HandlerOutcome.ok (some res)) :
    requestRoundTrip peerId now handlers m cid replyTopic
      = some (create_response (some cid) res peerId true none now)
    ∧ ∀ r, requestRoundTrip peerId now handlers m cid replyTopic = some r →
        r.payload = res ∧ r.correlation_id = some cid := by
  have houts : handle_message peerId now handlers (stampRequest m cid replyTopic)
      = [(replyTopic, create_response (some cid) res peerId true none now)] := by
    simp only [stampRequest] at hres
    simp [handle_message, stampRequest, hact, hh, hres, hrt]
  have hmain : requestRoundTrip peerId now handlers m cid replyTopic
      = some (create_response (some cid) res peerId true none now) := by
    simp [requestRoundTrip, houts, handle_reply, create_response, hcid]
  refine ⟨hmain, ?_⟩
  intro r hr
  rw [hmain] at hr
  injection hr with hr
  subst hr
  exact ⟨rfl, rfl⟩

/-- C5 witness: `request_reply_correlation` on the pre-registered `ping`
handler — the reply payload is exactly `{"pong": True, "system_id": ...}` and
the reply carries the stamped correlation id. -/
theorem request_reply_correlation_witness :
    ("c-42" : String) ≠ ""
    ∧ requestRoundTrip "sys-1" "t0" [("ping", pingHandler "sys-1")]
        ⟨"ping", [], "caller"⟩ "c-42" "replies.c"
        = some (create_response (some "c-42")
            [("pong", Val.vb true), ("system_id", Val.vs "sys-1")] "sys-1" true none "t0") :=
  ⟨by decide,
   (request_reply_correlation "sys-1" "t0" [("ping", pingHandler "sys-1")]
      ⟨"ping", [], "caller"⟩ "c-42" "replies.c" (pingHandler "sys-1")
      [("pong", Val.vb true), ("system_id", Val.vs "sys-1")]
      (by decide) (by decide) (by decide) rfl rfl).1⟩

/-- C3 counterexample: a transport failure (publish fails) and a timeout (no
matching reply in time) both make `request()` return `None` — the two
outcomes are the same value, so the caller cannot distinguish them. -/
theorem request_timeout_indistinguishable_counterexample :
    (bus_request [] "c-1" ⟨false, none⟩).1 = none
    ∧ (bus_request [] "c-1" ⟨true, none⟩).1 = none
    ∧ bus_request [] "c-1" ⟨false, none⟩ = bus_request [] "c-1" ⟨true, none⟩ := by
  decide

/-- C3 amended. Both failure modes of `request()` surface as the same `None`
result (they differ only in log output): a publish failure returns `None`
regardless of any reply, a timeout returns `None`, and the whole call outcome
(result and pending registry) is identical in the two cases. -/
theorem request_timeout_and_transport_failure_both_none
    (pending : List String) (cid : String) (r : Option OutMsg) :
    (bus_request pending cid ⟨false, r⟩).1 = none
    ∧ (bus_request pending cid ⟨true, none⟩).1 = none
    ∧ bus_request pending cid ⟨false, none⟩ = bus_request pending cid ⟨true, none⟩ :=
  ⟨rfl, rfl, rfl⟩

/-- C4 counterexample: on a fresh Kafka bus whose reply-topic consumer cannot
be created, `subscribe` reports failure — yet `start()` completes and marks
the bus started, with no consumer and no worker for the reply topic. -/
theorem start_reply_subscription_failure_counterexample :
    (kafkaStart false (freshKafkaBus "replies.b1")).started = true
    ∧ (kafkaSubscribe false "replies.b1"
        { freshKafkaBus "replies.b1" with producer := true }).1 = false
    ∧ (kafkaStart false (freshKafkaBus "replies.b1")).consumers = []
    ∧ (kafkaStart false (freshKafkaBus "replies.b1")).threads = [] := by
  decide

/-- C4 amended. A reply-subscription failure during `start()` is not fatal:
Kafka `start()` ignores the subscribe result and always ends started (even
with no reply consumer/worker created); MQTT `start()` likewise ends started
whenever the broker connection succeeds, and is fatal only when the
connection itself cannot be established. -/
theorem start_reply_subscription_not_fatal (subOk : Bool) (st : KafkaBus) (mst : MqttBus) :
    (kafkaStart subOk st).started = true
    ∧ (st.started = false → st.replyTopic ∉ st.callbacks → subOk = false →
        (kafkaStart subOk st).consumers = st.consumers
        ∧ (kafkaStart subOk st).threads = st.threads)
    ∧ (∃ r, mqttStart true subOk mst = Except.ok r ∧ r.started = true)
    ∧ (mst.started = false →
        mqttStart false subOk mst = Except.error "Failed to start MQTT SystemBus") := by
  refine ⟨?_, ?_, ?_, ?_⟩
  · by_cases h : st.started <;> simp [kafkaStart, h]
  · intro h1 h2 h3
    subst h3
    simp [kafkaStart, h1, kafkaSubscribe, h2]
  · by_cases h : mst.started
    · exact ⟨mst, by simp [mqttStart, h], h⟩
    · refine ⟨{ (mqttSubscribe subOk mst.replyTopic { mst with connected := true }).2
          with started := true }, ?_, rfl⟩
      simp [mqttStart, h]
  · intro h
    simp [mqttStart, h]

/-- C4 witness: `start_reply_subscription_not_fatal` on fresh bus states with
a failing reply subscription. -/
theorem start_reply_subscription_not_fatal_witness :
    (freshKafkaBus "replies.b1").started = false
    ∧ "replies.b1" ∉ (freshKafkaBus "replies.b1").callbacks
    ∧ (kafkaStart false (freshKafkaBus "replies.b1")).consumers
        = (freshKafkaBus "replies.b1").consumers
    ∧ mqttStart false false (freshMqttBus "replies/m1")
        = Except.error "Failed to start MQTT SystemBus" :=
  ⟨rfl, by decide,
   ((start_reply_subscription_not_fatal false (freshKafkaBus "replies.b1")
      (freshMqttBus "replies/m1")).2.1 rfl (by decide) rfl).1,
   (start_reply_subscription_not_fatal false (freshKafkaBus "replies.b1")
      (freshMqttBus "replies/m1")).2.2.2 rfl⟩

/-! ### Lifecycle lemmas for C8 -/

theorem kafkaSubscribe_mem_callbacks (ok : Bool) (topic : String) (st : KafkaBus) :
    topic ∈ ((kafkaSubscribe ok topic st).2).callbacks := by
  by_cases h : topic ∈ st.callbacks
  · simp [kafkaSubscribe, h]
  · by_cases hok : ok <;> simp [kafkaSubscribe, h, hok]

theorem kafkaSubscribe_preserves_started (ok : Bool) (topic : String) (st : KafkaBus) :
    ((kafkaSubscribe ok topic st).2).started = st.started := by
  by_cases h : topic ∈ st.callbacks
  · simp [kafkaSubscribe, h]
  · by_cases hok : ok <;> simp [kafkaSubscribe, h, hok]

theorem kafkaStart_started_eq_true (ok : Bool) (st : KafkaBus) :
    (kafkaStart ok st).started = true := by
  by_cases h : st.started <;> simp [kafkaStart, h]

theorem kafkaStart_of_started (ok : Bool) (st : KafkaBus) (h : st.started = true) :
    kafkaStart ok st = st := by
  simp [kafkaStart, h]

theorem kafkaSubscribe_already (ok : Bool) (topic : String) (st : KafkaBus)
    (h : topic ∈ st.callbacks) : kafkaSubscribe ok topic st = (true, st) := by
  simp [kafkaSubscribe, h]

theorem systemStart_idem (ok : Bool) (s : SysState) :
    systemStart ok (systemStart ok s) = systemStart ok s := by
  have hb2 : ((kafkaSubscribe ok s.topic (kafkaStart ok s.bus)).2).started = true := by
    rw [kafkaSubscribe_preserves_started, kafkaStart_started_eq_true]
  have hmem : s.topic ∈ ((kafkaSubscribe ok s.topic (kafkaStart ok s.bus)).2).callbacks :=
    kafkaSubscribe_mem_callbacks ok s.topic (kafkaStart ok s.bus)
  simp only [systemStart]
  rw [kafkaStart_of_started ok _ hb2, kafkaSubscribe_already ok _ _ hmem]

theorem systemStop_idem (s : SysState) :
    systemStop (systemStop s) = systemStop s := by
  cases s with
  | mk bus topic running =>
    cases bus with
    | mk rt prod cb cons thr run st =>
      simp [systemStop, kafkaUnsubscribe, kafkaStop]

/-- C8. `start()` and `stop()` are idempotent on the service router over the
bus: a second `start()` leaves exactly the state of the first (no duplicate
subscription, no second worker), a second `stop()` leaves exactly the state of
the first, a stopped instance has no workers and is not running, and a
`subscribe` on an already-subscribed topic returns success with the bus state
unchanged. -/
theorem start_stop_idempotent (ok : Bool) (s : SysState) (topic : String) (st : KafkaBus) :
    systemStart ok (systemStart ok s) = systemStart ok s
    ∧ systemStop (systemStop s) = systemStop s
    ∧ (systemStop s).running = false
    ∧ (systemStop s).bus.started = false
    ∧ (systemStop s).bus.threads = []
    ∧ (systemStop s).bus.consumers = []
    ∧ (topic ∈ st.callbacks → kafkaSubscribe ok topic st = (true, st)) := by
  refine ⟨systemStart_idem ok s, systemStop_idem s, ?_, ?_, ?_, ?_, ?_⟩
  · simp [systemStop]
  · simp [systemStop, kafkaStop]
  · simp [systemStop, kafkaStop]
  · simp [systemStop, kafkaStop]
  · intro h
    simp [kafkaSubscribe, h]

/-- C8 witness: `start_stop_idempotent` with a concrete already-subscribed
topic — re-subscribing returns success and changes nothing. -/
theorem start_stop_idempotent_witness :
    "t.a" ∈ ({ freshKafkaBus "replies.w" with callbacks := ["t.a"] } : KafkaBus).callbacks
    ∧ kafkaSubscribe true "t.a" { freshKafkaBus "replies.w" with callbacks := ["t.a"] }
        = (true, { freshKafkaBus "replies.w" with callbacks := ["t.a"] }) :=
  ⟨by decide,
   (start_stop_idempotent true ⟨freshKafkaBus "replies.w", "t.a", false⟩ "t.a"
      { freshKafkaBus "replies.w" with callbacks := ["t.a"] }).2.2.2.2.2.2 (by decide)⟩

/-! ### Workflow-trace lemmas for C1 -/

/-- Actions the forward workflow can issue. -/
def sagaActions : List String :=
  ["fleet.allocate", "redis.update_mission", "robot.execute_mission",
   "reserve_slots", "preflight_check", "charge_to_threshold",
   "release_for_takeoff", "upload_mission", "arm", "takeoff"]

theorem droneLoop_actions (env : SagaEnv) (ds : List String) :
    ∀ c ∈ (droneLoop env ds).2,
      c.action ∈ (["upload_mission", "arm", "takeoff"] : List String) := by
  induction ds with
  | nil =>
    intro c hc
    simp [droneLoop] at hc
  | cons d rest ih =>
    intro c hc
    simp only [droneLoop] at hc
    split at hc
    · simp at hc
      subst hc
      simp [callDrone]
    · split at hc
      · simp at hc
        rcases hc with hc | hc <;> (subst hc; simp [callDrone])
      · split at hc
        · simp at hc
          rcases hc with hc | hc | hc <;> (subst hc; simp [callDrone])
        · simp only [List.mem_cons] at hc
          rcases hc with hc | hc | hc | hc
          · subst hc; simp [callDrone]
          · subst hc; simp [callDrone]
          · subst hc; simp [callDrone]
          · exact ih c hc

theorem robotExecuteMission_actions (env : SagaEnv) (ds : List String) :
    ∀ c ∈ (robotExecuteMission env ds).2, c.action ∈ sagaActions := by
  intro c hc
  simp only [robotExecuteMission] at hc
  split at hc
  · simp at hc; subst hc; simp [call0, sagaActions]
  · split at hc
    · simp at hc
      rcases hc with hc | hc <;> (subst hc; simp [call0, sagaActions])
    · split at hc
      · simp at hc
        rcases hc with hc | hc | hc <;> (subst hc; simp [call0, sagaActions])
      · split at hc
        · simp at hc
          rcases hc with hc | hc | hc | hc <;> (subst hc; simp [call0, sagaActions])
        · split at hc
          · simp only [List.cons_append, List.nil_append, List.mem_append,
              List.mem_cons, List.not_mem_nil, or_false] at hc
            rcases hc with hc | hc | hc | hc | hc
            · subst hc; simp [call0, sagaActions]
            · subst hc; simp [call0, sagaActions]
            · subst hc; simp [call0, sagaActions]
            · subst hc; simp [call0, sagaActions]
            · have h3 := droneLoop_actions env ds c hc
              simp only [List.mem_cons, List.not_mem_nil, or_false] at h3
              rcases h3 with h3 | h3 | h3 <;> (rw [h3]; simp [sagaActions])
          · simp only [List.cons_append, List.nil_append, List.mem_append,
              List.mem_cons, List.not_mem_nil, or_false] at hc
            rcases hc with hc | hc | hc | hc | hc | hc
            · subst hc; simp [call0, sagaActions]
            · subst hc; simp [call0, sagaActions]
            · subst hc; simp [call0, sagaActions]
            · subst hc; simp [call0, sagaActions]
            · have h3 := droneLoop_actions env ds c hc
              simp only [List.mem_cons, List.not_mem_nil, or_false] at h3
              rcases h3 with h3 | h3 | h3 <;> (rw [h3]; simp [sagaActions])
            · subst hc; simp [callStatus, sagaActions]

theorem handle_plan_actions (env : SagaEnv) :
    ∀ c ∈ (handle_plan env).2, c.action ∈ sagaActions := by
  intro c hc
  simp only [handle_plan] at hc
  split at hc
  · simp at hc; subst hc; simp [call0, sagaActions]
  · split at hc
    · simp at hc; subst hc; simp [call0, sagaActions]
    · split at hc
      · simp at hc
        rcases hc with hc | hc <;>
          (subst hc; simp [call0, callStatus, sagaActions])
      · split at hc
        · simp at hc
          rcases hc with hc | hc | hc | hc <;>
            (subst hc; simp [call0, callStatus, sagaActions])
        · split at hc
          · simp only [List.cons_append, List.nil_append, List.mem_append,
              List.mem_cons, List.not_mem_nil, or_false] at hc
            rcases hc with hc | hc | hc | hc | hc
            · subst hc; simp [call0, sagaActions]
            · subst hc; simp [callStatus, sagaActions]
            · subst hc; simp [call0, sagaActions]
            · exact robotExecuteMission_actions env _ c hc
            · subst hc; simp [callStatus, sagaActions]
          · simp only [List.cons_append, List.nil_append, List.mem_append,
              List.mem_cons, List.not_mem_nil, or_false] at hc
            rcases hc with hc | hc | hc | hc | hc
            · subst hc; simp [call0, sagaActions]
            · subst hc; simp [callStatus, sagaActions]
            · subst hc; simp [call0, sagaActions]
            · exact robotExecuteMission_actions env _ c hc
            · subst hc; simp [callStatus, sagaActions]

/-- C1 counterexample: allocation of two drones succeeds, drone-001 completes
upload/arm/takeoff, then `arm` for drone-002 times out. The mission ends
`failed` (reported and written to the store), drone-001 is airborne — yet the
workflow issues no `abort`, no `fleet.release` and no port release of any
kind: no compensating call at all, contradicting the claim. -/
theorem saga_no_compensation_counterexample :
    (handle_plan cexEnv).1.status = "failed"
    ∧ (handle_plan cexEnv).1.accepted = false
    ∧ callDrone "external.drone_service" "takeoff" "drone-001" ∈ (handle_plan cexEnv).2
    ∧ callStatus "systems.gcs_redis" "redis.update_mission" "failed" ∈ (handle_plan cexEnv).2
    ∧ "abort" ∉ ((handle_plan cexEnv).2.map SagaCall.action)
    ∧ "fleet.release" ∉ ((handle_plan cexEnv).2.map SagaCall.action)
    ∧ "emergency_receive" ∉ ((handle_plan cexEnv).2.map SagaCall.action) := by
  decide

/-- C1 amended. If any workflow step fails or times out, the mission outcome
reported by the orchestrator is `failed` (and, except when the initial fleet
call itself failed, the store is updated to `failed`), but no compensating
call is issued on any failure path: the forward workflow never issues an
`abort` or `fleet.release` for already-succeeded steps. Compensation exists
only in the explicit cancel path (`robot.abort_mission`), which aborts every
listed drone and releases the fleet. -/
theorem saga_failure_no_compensation (env : SagaEnv) :
    ((handle_plan env).1.accepted = false → (handle_plan env).1.status = "failed")
    ∧ "abort" ∉ ((handle_plan env).2.map SagaCall.action)
    ∧ "fleet.release" ∉ ((handle_plan env).2.map SagaCall.action)
    ∧ (∀ ds, ∀ d ∈ ds,
        callDrone "external.drone_service" "abort" d ∈ handle_abort_mission ds)
    ∧ (∀ ds, call0 "systems.gcs_fleet" "fleet.release" ∈ handle_abort_mission ds) := by
  refine ⟨?_, ?_, ?_, ?_, ?_⟩
  · have hcases : (handle_plan env).1.accepted = true
        ∨ (handle_plan env).1.status = "failed" := by
      simp only [handle_plan]
      repeat' split
      all_goals simp
    intro hacc
    rcases hcases with hcases | hcases
    · rw [hacc] at hcases
      exact absurd hcases (by decide)
    · exact hcases
  · intro hmem
    rw [List.mem_map] at hmem
    obtain ⟨c, hc, hac⟩ := hmem
    have hall := handle_plan_actions env c hc
    rw [hac] at hall
    exact absurd hall (by decide)
  · intro hmem
    rw [List.mem_map] at hmem
    obtain ⟨c, hc, hac⟩ := hmem
    have hall := handle_plan_actions env c hc
    rw [hac] at hall
    exact absurd hall (by decide)
  · intro ds d hd
    apply List.mem_append_left
    exact List.mem_flatMap.mpr ⟨d, hd, by simp⟩
  · intro ds
    apply List.mem_append_right
    simp

/-- C1 witness: `saga_failure_no_compensation` at the counterexample
environment, plus the abort path on a one-drone mission. -/
theorem saga_failure_no_compensation_witness :
    (handle_plan cexEnv).1.accepted = false
    ∧ (handle_plan cexEnv).1.status = "failed"
    ∧ callDrone "external.drone_service" "abort" "drone-001"
        ∈ handle_abort_mission ["drone-001"] :=
  ⟨by decide, (saga_failure_no_compensation cexEnv).1 (by decide),
   (saga_failure_no_compensation cexEnv).2.2.2.1 ["drone-001"] "drone-001" (by decide)⟩

/-- C2 witness: `update_mission_overwrites_status` at the concrete failed
mission of the counterexample scenario. -/
theorem update_mission_overwrites_status_witness :
    ("m-1" : String) ≠ ""
    ∧ getA [("m-1", [("mission_id", Val.vs "m-1"), ("status", Val.vs "failed")])] "m-1"
        = some [("mission_id", Val.vs "m-1"), ("status", Val.vs "failed")]
    ∧ getA [("status", Val.vs "running")] "status" = some (Val.vs "running")
    ∧ (([("status", Val.vs "running")] : Mission).map Prod.fst).Nodup
    ∧ getA (mergedMission "t1" [("mission_id", Val.vs "m-1"), ("status", Val.vs "failed")]
          [("status", Val.vs "running")]) "status" = some (Val.vs "running") :=
  ⟨by decide, by decide, by decide, by decide,
   (update_mission_overwrites_status "t1" "m-1"
      [("m-1", [("mission_id", Val.vs "m-1"), ("status", Val.vs "failed")])]
      [("mission_id", Val.vs "m-1"), ("status", Val.vs "failed")]
      [("status", Val.vs "running")] (Val.vs "running")
      (by decide) (by decide) (by decide) (by decide)).1⟩

end DroneNav
